import Mathlib

/-!
Verification of the somnuscape MUD server core against its specification.

The Rust sources are shallowly embedded:
* machine integers become Nat / Int (u128 saturating arithmetic and i32
  wrap-around are made explicit where overflow can occur);
* HashMap<K, V> becomes either a total function K → Option V (for the
  six-slot Direction map of a Place) or an association list List (Nat × V)
  (for Location- and PlayerId-keyed maps), with insertion modelled as a
  lookup-shadowing cons;
* fallible code returns Except / Option, and a branch that panics in Rust
  is modelled by the none / error value of the surrounding operation;
* the nondeterministic iteration order of a Rust HashMap is fixed to a
  canonical order (the Direction enumeration order, or the list order of
  the embedded association list) where an iteration order is observable.
-/

set_option maxHeartbeats 1600000

namespace Somnuscape

/-- Locations are 128-bit identifiers (src/mud/world.rs); embedded as Nat. -/
abbrev Location := Nat

/-- PlayerIds are 128-bit identifiers (src/state.rs); embedded as Nat. -/
abbrev PlayerId := Nat

/-- AppErrors from src/main.rs. -/
inductive AppErrors where
  | PlayerDisconnected (id : PlayerId)
  | TooManyConnections (location : Location)
  | AIStructureError
deriving DecidableEq

/-- Direction enum from src/mud/world.rs. -/
inductive Direction where
  | North
  | East
  | South
  | West
  | Up
  | Down
deriving DecidableEq, Fintype

namespace Direction

/-- Direction::values() from src/mud/world.rs: the fixed enumeration order. -/
def values : List Direction := [North, East, South, West, Up, Down]

/-- Direction::reverse() from src/mud/world.rs. -/
def reverse : Direction → Direction
  | North => South
  | East => West
  | South => North
  | West => East
  | Up => Down
  | Down => Up

/-- Direction::name() from src/mud/world.rs (lowercase). -/
def name : Direction → String
  | North => "north"
  | East => "east"
  | South => "south"
  | West => "west"
  | Up => "up"
  | Down => "down"

/-- The derived Debug formatting of a Direction, as printed by the Rust
format specifier in move_commands (src/commands.rs). -/
def debugName : Direction → String
  | North => "North"
  | East => "East"
  | South => "South"
  | West => "West"
  | Up => "Up"
  | Down => "Down"

theorem mem_values (d : Direction) : d ∈ values := by
  cases d <;> simp [values]

end Direction

/-- The connections field of a Place: HashMap<Direction, Location> embedded
as a total function into Option (keys are the somes). -/
abbrev Connections := Direction → Option Location

/-- The number of occupied direction slots: connections.len() in Rust. -/
def connCount (c : Connections) : Nat :=
  (Direction.values.filter (fun d => (c d).isSome)).length

/-- Place from src/mud/world.rs. -/
structure Place where
  name : String
  location : Location
  description : String
  tags : List String
  connections : Connections

namespace Place

/-- HashMap::insert on the connections map. -/
def setConn (p : Place) (d : Direction) (loc : Location) : Place :=
  { p with connections := fun x => if x = d then some loc else p.connections x }

/-- The first direction of Direction::values() whose slot is free, as
computed by the filter().next() chain in Place::add_connection. -/
def firstFreeDirection (c : Connections) : Option Direction :=
  Direction.values.find? (fun d => (c d).isNone)

/-- Place::add_connection from src/mud/world.rs. Returns the updated place
(the &mut self after the call) together with the Rust Result. The inner
error branch models the .unwrap() on the filtered iterator; it is
unreachable because the length guard has already ensured a free slot. -/
def add_connection (p : Place) (direction : Direction) (location : Location) :
    Place × Except AppErrors Direction :=
  if 6 ≤ connCount p.connections then
    (p, .error (.TooManyConnections p.location))
  else if (p.connections direction).isSome then
    match firstFreeDirection p.connections with
    | some next_dir => (p.setConn next_dir location, .ok next_dir)
    | none => (p, .error (.TooManyConnections p.location))
  else
    (p.setConn direction location, .ok direction)

/-- Place::is_connected from src/mud/world.rs: true iff some connection
maps to the given location. -/
def is_connected (p : Place) (location : Location) : Bool :=
  Direction.values.any (fun d => p.connections d == some location)

end Place

theorem connCount_le_six (c : Connections) : connCount c ≤ 6 := by
  have h := List.length_filter_le (fun d => (c d).isSome) Direction.values
  simpa [connCount, Direction.values] using h

theorem connCount_eq_six_of_full (c : Connections)
    (h : ∀ d : Direction, (c d).isSome) : connCount c = 6 := by
  unfold connCount
  rw [List.filter_eq_self.mpr (fun d _ => h d)]
  rfl

theorem firstFree_isSome (c : Connections) (h : connCount c < 6) :
    ∃ d, Place.firstFreeDirection c = some d ∧ (c d).isNone := by
  cases hf : Place.firstFreeDirection c with
  | some d =>
    refine ⟨d, rfl, ?_⟩
    have := List.find?_some hf
    simpa using this
  | none =>
    exfalso
    rw [Place.firstFreeDirection, List.find?_eq_none] at hf
    have hall : ∀ d : Direction, (c d).isSome := by
      intro d
      have hd := hf d (Direction.mem_values d)
      simp only [Option.isNone_iff_eq_none] at hd
      exact Option.isSome_iff_ne_none.mpr (by simpa using hd)
    have := connCount_eq_six_of_full c hall
    omega

/-- Shared workhorse for the add_connection success path: with fewer than
six connections the call succeeds, uses the requested direction when free
and the first free direction otherwise, and stores the target under the
direction it returns. -/
theorem add_connection_lt_six (p : Place) (d : Direction) (loc : Location)
    (h : connCount p.connections < 6) :
    ∃ u p2, p.add_connection d loc = (p2, .ok u) ∧
      p2.connections u = some loc ∧
      p2.location = p.location ∧
      ((p.connections d).isNone → u = d) ∧
      ((p.connections d).isSome → Place.firstFreeDirection p.connections = some u) := by
  unfold Place.add_connection
  rw [if_neg (by omega)]
  by_cases hd : (p.connections d).isSome
  · obtain ⟨u, hu, hfree⟩ := firstFree_isSome p.connections h
    rw [if_pos hd, hu]
    refine ⟨u, _, rfl, ?_, rfl, ?_, fun _ => rfl⟩
    · simp [Place.setConn]
    · intro hnone
      rw [Option.isNone_iff_eq_none] at hnone
      rw [hnone] at hd
      simp at hd
  · rw [if_neg hd]
    refine ⟨d, _, rfl, ?_, rfl, fun _ => rfl, fun hs => absurd hs hd⟩
    simp [Place.setConn]

/-- C2: a Place with all six directions occupied rejects add_connection with
TooManyConnections carrying its own location, and its connections map is
unchanged by the call. -/
theorem add_connection_full (p : Place) (d : Direction) (loc : Location)
    (hfull : ∀ x : Direction, (p.connections x).isSome) :
    p.add_connection d loc = (p, .error (.TooManyConnections p.location)) := by
  unfold Place.add_connection
  rw [if_pos (by rw [connCount_eq_six_of_full p.connections hfull])]

/-- A concrete fully-connected place, used by witnesses. -/
def fullPlace : Place :=
  { name := "hub", location := 77, description := "full", tags := [],
    connections := fun _ => some 9 }

/-- Witness for C2 at a concrete fully-connected place. -/
theorem add_connection_full_witness :
    (∀ x : Direction, (fullPlace.connections x).isSome) ∧
      fullPlace.add_connection Direction.North 5 =
        (fullPlace, .error (.TooManyConnections 77)) :=
  ⟨by decide, add_connection_full fullPlace Direction.North 5 (by decide)⟩

/-- C3: a Place with fewer than six connections accepts add_connection,
stores the target under the direction it returns, and that direction is the
requested one when free, else the first free direction in enumeration
order. -/
theorem add_connection_ok (p : Place) (d : Direction) (loc : Location)
    (h : connCount p.connections < 6) :
    ∃ u p2, p.add_connection d loc = (p2, .ok u) ∧
      p2.connections u = some loc ∧
      ((p.connections d).isNone → u = d) ∧
      ((p.connections d).isSome → Place.firstFreeDirection p.connections = some u) := by
  obtain ⟨u, p2, heq, hstore, _, hfree, htaken⟩ := add_connection_lt_six p d loc h
  exact ⟨u, p2, heq, hstore, hfree, htaken⟩

/-- A concrete place with one occupied slot, used by witnesses. -/
def onePlace : Place :=
  { name := "room", location := 3, description := "r", tags := [],
    connections := fun x => if x = Direction.North then some 8 else none }

/-- Witness for C3 at a concrete place whose North slot is taken: the call
succeeds and the renumbering rule applies. -/
theorem add_connection_ok_witness :
    connCount onePlace.connections < 6 ∧
    ∃ u p2, onePlace.add_connection Direction.North 5 = (p2, .ok u) ∧
      p2.connections u = some 5 ∧
      ((onePlace.connections Direction.North).isNone → u = Direction.North) ∧
      ((onePlace.connections Direction.North).isSome →
        Place.firstFreeDirection onePlace.connections = some u) :=
  ⟨by decide, add_connection_ok onePlace Direction.North 5 (by decide)⟩

/-! Association lists model the Location- and PlayerId-keyed HashMaps.
Lookup takes the first matching entry, so HashMap::insert is a
lookup-shadowing cons. -/

/-- HashMap lookup (get / indexing) over the association-list model. -/
def alookup {α : Type} : List (Nat × α) → Nat → Option α
  | [], _ => none
  | kv :: rest, k => if k = kv.1 then some kv.2 else alookup rest k

/-- HashMap update of an existing key (the effect of get_mut followed by a
mutation): every entry carrying the key is replaced. -/
def aupdate {α : Type} (m : List (Nat × α)) (k : Nat) (v : α) : List (Nat × α) :=
  m.map (fun kv => if kv.1 = k then (k, v) else kv)

/-- HashMap::insert over the association-list model. -/
def ainsert {α : Type} (m : List (Nat × α)) (k : Nat) (v : α) : List (Nat × α) :=
  (k, v) :: m

/-- Inserting a batch of entries one by one (the per-room insert loop). -/
def ainsertAll {α : Type} (m : List (Nat × α)) (batch : List (Nat × α)) :
    List (Nat × α) :=
  batch.foldl (fun acc kv => ainsert acc kv.1 kv.2) m

theorem aupdate_cons {α : Type} (kv : Nat × α) (rest : List (Nat × α)) (k : Nat)
    (v : α) :
    aupdate (kv :: rest) k v = (if kv.1 = k then (k, v) else kv) :: aupdate rest k v :=
  rfl

theorem alookup_mem {α : Type} {m : List (Nat × α)} {k : Nat} {v : α}
    (h : alookup m k = some v) : (k, v) ∈ m := by
  induction m with
  | nil => simp [alookup] at h
  | cons kv rest ih =>
    obtain ⟨k1, v1⟩ := kv
    rw [alookup] at h
    by_cases hk : k = k1
    · rw [if_pos hk] at h
      have hv : v1 = v := by injection h
      rw [hk, hv]
      exact List.mem_cons_self _ rest
    · rw [if_neg hk] at h
      exact List.mem_cons_of_mem _ (ih h)

theorem alookup_aupdate_self {α : Type} (m : List (Nat × α)) (k : Nat) (v : α)
    (h : (alookup m k).isSome) : alookup (aupdate m k v) k = some v := by
  induction m with
  | nil => simp [alookup] at h
  | cons kv rest ih =>
    obtain ⟨k1, v1⟩ := kv
    rw [aupdate_cons]
    by_cases hk : k = k1
    · rw [if_pos (by rw [hk]), alookup, if_pos rfl]
    · rw [alookup, if_neg hk] at h
      rw [if_neg (fun hc => hk hc.symm), alookup, if_neg hk]
      exact ih h

theorem alookup_aupdate_ne {α : Type} (m : List (Nat × α)) (k k2 : Nat) (v : α)
    (h : k2 ≠ k) : alookup (aupdate m k v) k2 = alookup m k2 := by
  induction m with
  | nil => rfl
  | cons kv rest ih =>
    obtain ⟨k1, v1⟩ := kv
    rw [aupdate_cons]
    by_cases hk : k1 = k
    · subst hk
      simp [alookup, h, ih]
    · simp [alookup, hk, ih]

theorem alookup_ainsertAll_not_mem {α : Type} (batch m : List (Nat × α)) (k : Nat)
    (h : ∀ kv ∈ batch, kv.1 ≠ k) :
    alookup (ainsertAll m batch) k = alookup m k := by
  induction batch generalizing m with
  | nil => rfl
  | cons kv rest ih =>
    rw [ainsertAll, List.foldl_cons]
    have step := ih (ainsert m kv.1 kv.2) (fun x hx => h x (List.mem_cons_of_mem kv hx))
    rw [ainsertAll] at step
    rw [step, ainsert, alookup, if_neg]
    intro hc
    exact h kv (List.mem_cons_self kv rest) hc.symm

theorem alookup_ainsertAll_mem {α : Type} (batch m : List (Nat × α)) (k : Nat) (v : α)
    (hmem : (k, v) ∈ batch) (hnodup : (batch.map Prod.fst).Nodup) :
    alookup (ainsertAll m batch) k = some v := by
  induction batch generalizing m with
  | nil => simp at hmem
  | cons kv rest ih =>
    rw [ainsertAll, List.foldl_cons]
    rw [List.map_cons, List.nodup_cons] at hnodup
    rcases List.mem_cons.mp hmem with heq | hrest
    · subst heq
      have hnot : ∀ x ∈ rest, x.1 ≠ k := by
        intro x hx hc
        have hm : x.1 ∈ rest.map Prod.fst := List.mem_map_of_mem Prod.fst hx
        rw [hc] at hm
        exact hnodup.1 hm
      have step := alookup_ainsertAll_not_mem rest (ainsert m k v) k hnot
      rw [ainsertAll] at step
      rw [step, ainsert, alookup, if_pos rfl]
    · exact ih (ainsert m kv.1 kv.2) hrest hnodup.2

/-! Embedding of src/mud/character.rs (plus the location field of §3 of the
spec, which commands.rs reads but which is missing from the character
struct shipped under src/). -/

/-- Two's-complement wrap-around of i32 arithmetic (release-mode Rust). -/
def wrap32 (n : Int) : Int := (n + 2 ^ 31) % 2 ^ 32 - 2 ^ 31

/-- Attribute from src/mud/character.rs: a newtype over i32. -/
structure Attribute where
  val : Int
deriving DecidableEq

/-- Attribute::modifier from src/mud/character.rs: (self.0 - 10) / 2 in i32
arithmetic; the subtraction wraps and the division truncates toward zero. -/
def Attribute.modifier (a : Attribute) : Int :=
  Int.tdiv (wrap32 (a.val - 10)) 2

/-- Attributes from src/mud/character.rs. -/
structure Attributes where
  strength : Attribute
  toughness : Attribute
  agility : Attribute
  intelligence : Attribute
  willpower : Attribute
deriving DecidableEq

/-- ItemStack from src/mud/character.rs. -/
structure ItemStack where
  name : String
  count : Nat
deriving DecidableEq

/-- Inventory from src/mud/character.rs. -/
structure Inventory where
  items : List ItemStack
  total_weight : Nat
deriving DecidableEq

/-- Character from src/mud/character.rs. The location field is modelled
from the spec (§3): commands.rs requires it but the struct under src/ lacks
it. -/
structure Character where
  name : String
  location : Location
  health : Nat
  attributes : Attributes
  inventory : Inventory

/-- Character::default(): attributes default to 10, location to the invalid
Location 0. -/
def defaultCharacter : Character :=
  { name := "", location := 0, health := 0,
    attributes := ⟨⟨10⟩, ⟨10⟩, ⟨10⟩, ⟨10⟩, ⟨10⟩⟩,
    inventory := ⟨[], 0⟩ }

/-- Character::max_health from src/mud/character.rs:
((modifier * 2) + 8).max(1).try_into().unwrap() — i32 arithmetic wraps, the
max guarantees a positive value, so the u32 conversion never panics and
preserves the value. -/
def Character.max_health (c : Character) : Int :=
  max (wrap32 (wrap32 (c.attributes.toughness.modifier * 2) + 8)) 1

/-! Embedding of World and Place::look from src/mud/world.rs. -/

/-- World from src/mud/world.rs. -/
structure World where
  places : List (Location × Place)
  overworld_locales : List Location
  player_characters : List (PlayerId × Character)
  current_tick : Nat

/-- One iteration of the look loop over the connections map (the map's
iteration order is fixed to the Direction enumeration order). The none
value models the panic of the world.places[loc] indexing on a dangling
connection. -/
def lookStep (w : World) (p : Place) (acc : Option String) (d : Direction) :
    Option String :=
  match acc with
  | none => none
  | some s =>
    match p.connections d with
    | none => some s
    | some loc =>
      match alookup w.places loc with
      | none => none
      | some np => some (s ++ ("Looking " ++ d.name ++ " you see " ++ np.name ++ "\n"))

/-- Place::look from src/mud/world.rs. -/
def Place.look (p : Place) (w : World) (start : String) : Option String :=
  Direction.values.foldl (lookStep w p)
    (some (start ++ " " ++ p.name ++ "\n\n" ++ p.description ++ "\n\n"))

/-- Every connection target of the place is a key of world.places
(decidable, so concrete witnesses can discharge it by evaluation). -/
def placeClosed (w : World) (p : Place) : Bool :=
  Direction.values.all (fun d =>
    match p.connections d with
    | none => true
    | some loc => (alookup w.places loc).isSome)

/-- Every place of the world has all its connection targets present. -/
def closedWorld (w : World) : Bool :=
  w.places.all (fun kv => placeClosed w kv.2)

theorem placeClosed_spec {w : World} {p : Place} (h : placeClosed w p = true) :
    ∀ d loc, p.connections d = some loc → (alookup w.places loc).isSome := by
  intro d loc hc
  have hd := List.all_eq_true.mp h d (Direction.mem_values d)
  rw [hc] at hd
  exact hd

theorem closedWorld_spec {w : World} {l : Location} {p : Place}
    (h : closedWorld w = true) (hl : alookup w.places l = some p) :
    placeClosed w p = true :=
  List.all_eq_true.mp h (l, p) (alookup_mem hl)

theorem lookFold_append (w : World) (p : Place) (ds : List Direction) (s : String)
    (h : ∀ d ∈ ds, ∀ loc, p.connections d = some loc → (alookup w.places loc).isSome) :
    ∃ rest, ds.foldl (lookStep w p) (some s) = some (s ++ rest) := by
  induction ds generalizing s with
  | nil => exact ⟨"", by rw [String.append_empty]; rfl⟩
  | cons d ds ih =>
    rw [List.foldl_cons]
    cases hc : p.connections d with
    | none =>
      have hstep : lookStep w p (some s) d = some s := by
        simp [lookStep, hc]
      rw [hstep]
      exact ih s (fun d2 hd2 => h d2 (List.mem_cons_of_mem d hd2))
    | some loc =>
      have hsome := h d (List.mem_cons_self d ds) loc hc
      obtain ⟨np, hnp⟩ := Option.isSome_iff_exists.mp hsome
      have hstep : lookStep w p (some s) d =
          some (s ++ ("Looking " ++ d.name ++ " you see " ++ np.name ++ "\n")) := by
        simp [lookStep, hc, hnp]
      rw [hstep]
      obtain ⟨rest, hrest⟩ :=
        ih (s ++ ("Looking " ++ d.name ++ " you see " ++ np.name ++ "\n"))
          (fun d2 hd2 => h d2 (List.mem_cons_of_mem d hd2))
      refine ⟨("Looking " ++ d.name ++ " you see " ++ np.name ++ "\n") ++ rest, ?_⟩
      rw [hrest, String.append_assoc]

theorem look_append (w : World) (p : Place) (start : String)
    (h : ∀ d loc, p.connections d = some loc → (alookup w.places loc).isSome) :
    ∃ rest, p.look w start =
      some ((start ++ " " ++ p.name ++ "\n\n" ++ p.description ++ "\n\n") ++ rest) :=
  lookFold_append w p Direction.values _ (fun d _ => h d)

/-- C10: for a place all of whose connection targets are keys of
World.places, Place::look is total — the per-connection indexed lookup
never reaches its missing-key panic branch. -/
theorem look_total (w : World) (l : Location) (p : Place) (start : String)
    (hl : alookup w.places l = some p) (h : placeClosed w p = true) :
    ∃ s, p.look w start = some s := by
  obtain ⟨rest, hr⟩ := look_append w p start (placeClosed_spec h)
  exact ⟨_, hr⟩

/-! Embedding of the movement commands from src/commands.rs. -/

/-- HashMap entry(k).or_default() followed by writing v back: update when
present, insert otherwise. -/
def aupsert {α : Type} (m : List (Nat × α)) (k : Nat) (v : α) : List (Nat × α) :=
  if (alookup m k).isSome then aupdate m k v else ainsert m k v

theorem alookup_aupsert_self {α : Type} (m : List (Nat × α)) (k : Nat) (v : α) :
    alookup (aupsert m k v) k = some v := by
  unfold aupsert
  by_cases h : (alookup m k).isSome
  · rw [if_pos h]
    exact alookup_aupdate_self m k v h
  · rw [if_neg h, ainsert, alookup, if_pos rfl]

/-- The body of one movement command from src/commands.rs: the second
component is the message sent through the broker, none modelling the panic
of the engine.world.places[l] indexing on a dangling neighbor. -/
def move_command (w : World) (player : PlayerId) (direction : Direction) :
    World × Option String :=
  let pc := (alookup w.player_characters player).getD defaultCharacter
  match alookup w.places pc.location with
  | some place =>
    match place.connections direction with
    | some l =>
      let pc2 := { pc with location := l }
      let w2 := { w with player_characters := aupsert w.player_characters player pc2 }
      match alookup w2.places l with
      | none => (w2, none)
      | some np => (w2, np.look w2 "You move to")
    | none =>
      ({ w with player_characters := aupsert w.player_characters player pc },
        some ("You cannot go " ++ direction.debugName ++ " from here"))
  | none =>
    let pc2 := { pc with location := w.overworld_locales.headD 0 }
    ({ w with player_characters := aupsert w.player_characters player pc2 },
      some "Invalid location, resetting to start")

/-- C5: for a player whose character stands in a place present in
World.places (in a world whose connections all resolve), a movement command
with no connection in that direction reports "You cannot go {Dir} from
here" and leaves the location unchanged; with a connection it moves the
character there and sends that neighbor's look text beginning "You move
to". -/
theorem move_command_spec (w : World) (player : PlayerId) (direction : Direction)
    (pc : Character) (place : Place)
    (hpc : alookup w.player_characters player = some pc)
    (hplace : alookup w.places pc.location = some place)
    (hclosed : closedWorld w = true) :
    (place.connections direction = none →
      (move_command w player direction).2 =
        some ("You cannot go " ++ direction.debugName ++ " from here") ∧
      (alookup (move_command w player direction).1.player_characters player).map
        Character.location = some pc.location) ∧
    (∀ l, place.connections direction = some l →
      ∃ np rest, alookup w.places l = some np ∧
        (move_command w player direction).2 =
          some (("You move to" ++ " " ++ np.name ++ "\n\n" ++ np.description ++ "\n\n")
            ++ rest) ∧
        (alookup (move_command w player direction).1.player_characters player).map
          Character.location = some l) := by
  constructor
  · intro hnone
    refine ⟨?_, ?_⟩
    · simp only [move_command, hpc, Option.getD_some, hplace, hnone]
    · simp only [move_command, hpc, Option.getD_some, hplace, hnone]
      rw [alookup_aupsert_self]
      rfl
  · intro l hl
    have hplaceClosed := closedWorld_spec hclosed hplace
    have hsome := placeClosed_spec hplaceClosed direction l hl
    obtain ⟨np, hnp⟩ := Option.isSome_iff_exists.mp hsome
    have hnpClosed := closedWorld_spec hclosed hnp
    obtain ⟨rest, hrest⟩ :=
      look_append
        ({ w with player_characters :=
            aupsert w.player_characters player { pc with location := l } } : World)
        np "You move to" (placeClosed_spec hnpClosed)
    refine ⟨np, rest, hnp, ?_, ?_⟩
    · simp only [move_command, hpc, Option.getD_some, hplace, hl, hnp]
      exact hrest
    · simp only [move_command, hpc, Option.getD_some, hplace, hl, hnp]
      rw [alookup_aupsert_self]
      rfl

/-- Demo place A of the two-place world of scenario S2. -/
def demoA : Place :=
  { name := "A", location := 1, description := "A side", tags := [],
    connections := fun d => if d = Direction.North then some 2 else none }

/-- Demo place B of the two-place world of scenario S2. -/
def demoB : Place :=
  { name := "B", location := 2, description := "B side", tags := [],
    connections := fun d => if d = Direction.South then some 1 else none }

/-- A character standing in demo place A. -/
def demoChar : Character := { defaultCharacter with location := 1 }

/-- The two-place demo world of scenario S2 with one authenticated player. -/
def demoWorld : World :=
  { places := [(1, demoA), (2, demoB)], overworld_locales := [1],
    player_characters := [(7, demoChar)], current_tick := 0 }

/-- Witness for C10 at demo place A. -/
theorem look_total_witness : ∃ s, demoA.look demoWorld "You're standing in" = some s :=
  look_total demoWorld 1 demoA "You're standing in" rfl (by decide)

/-- Witness for C5: moving north from demo place A succeeds and reports the
move into B. -/
theorem move_command_spec_witness :
    ∃ np rest, alookup demoWorld.places 2 = some np ∧
      (move_command demoWorld 7 Direction.North).2 =
        some (("You move to" ++ " " ++ np.name ++ "\n\n" ++ np.description ++ "\n\n")
          ++ rest) ∧
      (alookup (move_command demoWorld 7 Direction.North).1.player_characters 7).map
        Character.location = some 2 :=
  (move_command_spec demoWorld 7 Direction.North demoChar demoA rfl rfl (by decide)).2
    2 rfl

/-! Embedding of the linkage part of the generation pipeline,
src/generation/place.rs. The LLM answers (room list, linkage YAML) are
inputs of the embedded functions; the nondeterministic iteration order of
links.connections is the list order of the embedded payload. -/

/-- The map of rooms keyed by Location built inside link_rooms. -/
abbrev PlaceMap := List (Location × Place)

/-- Rust char::is_whitespace restricted to the ASCII whitespace that the
embedded strings use. -/
def isWhitespaceChar (c : Char) : Bool :=
  c == ' ' || c == '\t' || c == '\n' || c == '\r'

/-- Rust str::trim over the character-list view of a String (structural, so
concrete inputs evaluate in the kernel). -/
def trimString (s : String) : String :=
  String.mk (((s.data.dropWhile isWhitespaceChar).reverse.dropWhile
    isWhitespaceChar).reverse)

/-- The YAML payload parsed by link_rooms (struct LinkRoomsOutput). -/
structure LinkRoomsOutput where
  entrance : String
  connections : List (String × List String)

/-- The body of the inner for-loop of link_rooms for one (node, neighbor)
pair: skip unknown names and already-connected pairs, otherwise wire
node → neighbor with add_connection(North, ..) and then wire the reverse
direction on the neighbor, discarding the direction the second call
actually used (only its error propagates). The AIStructureError on a
failed lookup of a known room models the .unwrap() panic and is
unreachable. -/
def linkOneNeighbor (nameToLoc : String → Option Location) (a : Location)
    (m : PlaceMap) (con : String) : Except AppErrors PlaceMap :=
  match nameToLoc con with
  | none => .ok m
  | some b =>
    match alookup m a with
    | none => .error .AIStructureError
    | some ra =>
      if ra.is_connected b then .ok m
      else
        match ra.add_connection Direction.North b with
        | (_, .error _) => .error .AIStructureError
        | (ra2, .ok dir) =>
          let m1 := aupdate m a ra2
          match alookup m1 b with
          | none => .error .AIStructureError
          | some rb =>
            match rb.add_connection dir.reverse a with
            | (_, .error _) => .error .AIStructureError
            | (rb2, .ok _) => .ok (aupdate m1 b rb2)

/-- link_rooms from src/generation/place.rs, after the YAML extraction:
build the Location-keyed room map and the name-to-location map, wire every
listed edge, then resolve the entrance name. -/
def link_rooms (rooms : List Place) (links : LinkRoomsOutput) :
    Except AppErrors (Location × PlaceMap) := do
  let roomMap : PlaceMap := rooms.map (fun r => (r.location, r))
  let nameToLoc : String → Option Location := fun n =>
    (roomMap.find? (fun kv => kv.2.name == n)).map (fun kv => kv.1)
  let final ← links.connections.foldlM
    (fun m node =>
      match nameToLoc node.1 with
      | none => pure m
      | some a => node.2.foldlM (linkOneNeighbor nameToLoc a) m)
    roomMap
  match nameToLoc (trimString links.entrance) with
  | none => .error .AIStructureError
  | some e => pure (e, final)

/-- generate_place from src/generation/place.rs, after the LLM calls: the
overworld wrapper place is linked Down to the entrance, and the entrance
Up to the overworld place; the direction the entrance-side call actually
used is discarded. The Location drawn for the wrapper is a parameter. -/
def generate_place (owLoc : Location) (ideaName ideaDesc : String)
    (rooms : List Place) (links : LinkRoomsOutput) :
    Except AppErrors (Place × PlaceMap) := do
  let (entrance, m) ← link_rooms rooms links
  let ow : Place :=
    { name := "Overworld - " ++ ideaName, location := owLoc,
      description := ideaDesc, tags := [], connections := fun _ => none }
  match ow.add_connection Direction.Down entrance with
  | (_, .error e) => .error e
  | (ow2, .ok _) =>
    match alookup m entrance with
    | none => .error .AIStructureError
    | some ent =>
      match ent.add_connection Direction.Up ow2.location with
      | (_, .error e) => .error e
      | (ent2, .ok _) => pure (ow2, aupdate m entrance ent2)

/-- An empty-connection room used by the C1 failing input. -/
def demoRoom (n : String) (l : Location) : Place :=
  { name := n, location := l, description := "", tags := [],
    connections := fun _ => none }

/-- The three rooms of the C1 failing input. -/
def demoRooms : List Place := [demoRoom "r1" 1, demoRoom "r2" 2, demoRoom "r3" 3]

/-- The linkage answer of the C1 failing input: r1 and r3 each name r2 as a
neighbor, r1 is the entrance. -/
def demoLinks : LinkRoomsOutput :=
  { entrance := "r1", connections := [("r1", ["r2"]), ("r3", ["r2"])] }

/-- The interior-room map produced by the pipeline on the failing input. -/
def demoGenerated : Option PlaceMap :=
  ((generate_place 100 "Demo" "demo idea" demoRooms demoLinks).toOption).map
    (fun r => r.2)

/-- The connection of the place stored at l in direction d, within an
optional generated map. -/
def connAt (m : Option PlaceMap) (l : Location) (d : Direction) : Option Location :=
  m.bind (fun pm => (alookup pm l).bind (fun p => p.connections d))

/-- C1 fails on the code: on the failing input the pipeline succeeds and
returns a graph in which room 2 is connected North to room 3 while room 3
has no South connection back — link_rooms wires the second endpoint with
add_connection(dir.reverse(), ..) but ignores the direction that call
actually uses, so a renumbered slot breaks bidirectionality. -/
theorem link_rooms_not_bidirectional :
    demoGenerated.isSome = true ∧
    connAt demoGenerated 2 Direction.North = some 3 ∧
    connAt demoGenerated 3 Direction.North.reverse = none := by
  refine ⟨?_, ?_, ?_⟩ <;> decide

/-! Embedding of the account store (src/state.rs) and the login state
machine (src/main.rs). The YAML codec is an opaque external dependency and
is passed in as a serialize/deserialize pair; the random PlayerId draw is
passed in as the value drawn. -/

/-- PlayerAccount from src/main.rs; password is the u64 seahash value. -/
structure PlayerAccount where
  username : String
  password : Nat
deriving DecidableEq

/-- AccountStorage from src/state.rs: the in-memory map together with the
contents of the registry file on disk (none = file absent). -/
structure AccountStorage where
  accounts : List (PlayerId × PlayerAccount)
  file : Option String

/-- AccountStorage::register_user from src/state.rs: insert under the
drawn id, serialize the whole map and write it to the file, then return
the id. The returned store reflects the state after the write, which
precedes the return. -/
def register_user (ser : List (PlayerId × PlayerAccount) → String)
    (store : AccountStorage) (player : PlayerAccount) (rid : PlayerId) :
    AccountStorage × PlayerId :=
  let accounts2 := ainsert store.accounts rid player
  ({ accounts := accounts2, file := some (ser accounts2) }, rid)

/-- AccountStorage::load_or_new from src/state.rs, restricted to the map it
yields: deserialize the file when present, start empty otherwise; none
models the deserialization error path. -/
def load_or_new (deser : String → Option (List (PlayerId × PlayerAccount)))
    (file : Option String) : Option (List (PlayerId × PlayerAccount)) :=
  match file with
  | some contents => deser contents
  | none => some []

/-- ConnectionState from src/main.rs (the broker half of Authorized is
dropped). -/
inductive ConnState where
  | Unauthorized
  | NewUser (username : String)
  | Login (id : PlayerId)
  | Authorized (id : PlayerId)
deriving DecidableEq

/-- ConnectionState::handle_login from src/main.rs. hash is the opaque
seahash, rid the PlayerId that register_user would draw. The none message
models the panics of the Login-state indexing into the registry and of the
unreachable Authorized arm. -/
def handle_login (hash : String → Nat)
    (ser : List (PlayerId × PlayerAccount) → String) (rid : PlayerId)
    (store : AccountStorage) (st : ConnState) (msg : String) :
    AccountStorage × ConnState × Option String :=
  match st with
  | .Unauthorized =>
    let username := trimString msg
    match store.accounts.find?
        (fun kv => kv.2.username.toLower == username.toLower) with
    | some kv =>
      (store, .Login kv.1,
        some ("Welcome back " ++ kv.2.username ++ "!\r\nPlease enter your password:"))
    | none =>
      (store, .NewUser username,
        some ("Welcome " ++ username ++ "!\r\n\r\nWe haven't see you before, please choose a password!\r\n(Friendly reminder that for nostalgia's sake, your connection is unencrypted.\r\n*Please* use a unique password, people could be watching)\r\n\r\nPassword:"))
  | .NewUser username =>
    let password := hash msg
    let r := register_user ser store ⟨username, password⟩ rid
    (r.1, .Authorized r.2, some "Password set.\r\nWelcome to Somnuscape!")
  | .Login player_id =>
    match alookup store.accounts player_id with
    | none => (store, .Login player_id, none)
    | some player =>
      if hash msg = player.password then
        (store, .Authorized player_id,
          some "Login successful.\r\nWelcome back to Somnuscape!")
      else
        (store, .Login player_id,
          some ("Login failed, retry your password for " ++ player.username ++ ":"))
  | .Authorized id => (store, .Authorized id, none)

/-- Repeated submission of passwords, carrying store and state. -/
def loginFold (hash : String → Nat)
    (ser : List (PlayerId × PlayerAccount) → String) (rid : PlayerId)
    (acc : AccountStorage × ConnState) (msgs : List String) :
    AccountStorage × ConnState :=
  msgs.foldl
    (fun a m =>
      let r := handle_login hash ser rid a.1 a.2 m
      (r.1, r.2.1)) acc

theorem handle_login_fail_step (hash : String → Nat)
    (ser : List (PlayerId × PlayerAccount) → String) (rid : PlayerId)
    (store : AccountStorage) (id : PlayerId) (acct : PlayerAccount) (msg : String)
    (hacct : alookup store.accounts id = some acct)
    (hwrong : hash msg ≠ acct.password) :
    handle_login hash ser rid store (.Login id) msg =
      (store, .Login id,
        some ("Login failed, retry your password for " ++ acct.username ++ ":")) := by
  simp [handle_login, hacct, hwrong]

/-- C6: in Login state a password whose hash differs from the stored hash
leaves the session in Login with the same id and returns the retry prompt
built from the stored username; any number of consecutive failures stays
in that state (no lockout). -/
theorem login_mismatch_retries (hash : String → Nat)
    (ser : List (PlayerId × PlayerAccount) → String) (rid : PlayerId)
    (store : AccountStorage) (id : PlayerId) (acct : PlayerAccount)
    (msgs : List String)
    (hacct : alookup store.accounts id = some acct)
    (hwrong : ∀ m ∈ msgs, hash m ≠ acct.password) :
    loginFold hash ser rid (store, .Login id) msgs = (store, .Login id) ∧
    ∀ m ∈ msgs, handle_login hash ser rid store (.Login id) m =
      (store, .Login id,
        some ("Login failed, retry your password for " ++ acct.username ++ ":")) := by
  refine ⟨?_, fun m hm => handle_login_fail_step hash ser rid store id acct m hacct
    (hwrong m hm)⟩
  induction msgs with
  | nil => rfl
  | cons m ms ih =>
    rw [loginFold, List.foldl_cons]
    have hstep := handle_login_fail_step hash ser rid store id acct m hacct
      (hwrong m (List.mem_cons_self m ms))
    rw [hstep]
    exact ih (fun m2 hm2 => hwrong m2 (List.mem_cons_of_mem m hm2))

/-- The concrete single-account store of the login witnesses. -/
def demoStore : AccountStorage := { accounts := [(7, ⟨"Ada", 42⟩)], file := none }

/-- Witness for C6: two wrong passwords (hashed by length here) leave the
session in Login 7 and produce the retry prompt for Ada. -/
theorem login_mismatch_retries_witness :
    loginFold String.length (fun _ => "") 0 (demoStore, .Login 7) ["wrong", "no"] =
      (demoStore, .Login 7) ∧
    ∀ m ∈ ["wrong", "no"],
      handle_login String.length (fun _ => "") 0 demoStore (.Login 7) m =
        (demoStore, .Login 7,
          some ("Login failed, retry your password for " ++ "Ada" ++ ":")) :=
  login_mismatch_retries String.length (fun _ => "") 0 demoStore 7 ⟨"Ada", 42⟩
    ["wrong", "no"] rfl (by decide)

/-- C7: after register_user returns, the registry file holds the serialized
new map (the write precedes the return), and re-loading it as load_or_new
does yields the account under the returned id, given the serializer
round-trip contract of the opaque YAML codec. -/
theorem register_user_durable (ser : List (PlayerId × PlayerAccount) → String)
    (deser : String → Option (List (PlayerId × PlayerAccount)))
    (store : AccountStorage) (a : PlayerAccount) (rid : PlayerId)
    (hround : deser (ser (ainsert store.accounts rid a)) =
      some (ainsert store.accounts rid a)) :
    (register_user ser store a rid).1.file =
      some (ser (ainsert store.accounts rid a)) ∧
    ∃ m, load_or_new deser (register_user ser store a rid).1.file = some m ∧
      alookup m (register_user ser store a rid).2 = some a := by
  refine ⟨rfl, ainsert store.accounts rid a, ?_, ?_⟩
  · exact hround
  · simp [register_user, ainsert, alookup]

/-- Witness for C7 with a concrete store and a deserializer satisfying the
round-trip contract on that input. -/
theorem register_user_durable_witness :
    (register_user (fun _ => "y") ⟨[], none⟩ ⟨"Bob", 9⟩ 3).1.file = some "y" ∧
    ∃ m, load_or_new (fun _ => some (ainsert [] 3 ⟨"Bob", 9⟩))
        (register_user (fun _ => "y") ⟨[], none⟩ ⟨"Bob", 9⟩ 3).1.file = some m ∧
      alookup m (register_user (fun _ => "y") ⟨[], none⟩ ⟨"Bob", 9⟩ 3).2 =
        some ⟨"Bob", 9⟩ :=
  register_user_durable (fun _ => "y") (fun _ => some (ainsert [] 3 ⟨"Bob", 9⟩))
    ⟨[], none⟩ ⟨"Bob", 9⟩ 3 rfl

/-! Location::new_location from src/mud/world.rs. -/

/-- Location::new_location: the random u128 draw v, then v.saturating_add(1). -/
def new_location (v : Nat) : Nat := min (v + 1) (2 ^ 128 - 1)

/-- C8 fails on the code: a nonzero draw is not returned unchanged — the
code increments every draw (saturating), so the draw 5 yields Location 6. -/
theorem new_location_increments_nonzero : new_location 5 ≠ 5 := by decide

/-- C8 as amended: new_location increments every draw (saturating at the
u128 maximum), and in particular never issues Location 0. -/
theorem new_location_spec (v : Nat) :
    0 < new_location v ∧ (v < 2 ^ 128 - 1 → new_location v = v + 1) := by
  unfold new_location
  constructor
  · exact lt_min_iff.mpr ⟨Nat.succ_pos v, by norm_num⟩
  · intro h
    exact min_eq_left (Nat.succ_le_of_lt h)

/-- Witness for the amended C8 at the draw 5. -/
theorem new_location_spec_witness :
    (5 : Nat) < 2 ^ 128 - 1 ∧ 0 < new_location 5 ∧ new_location 5 = 5 + 1 :=
  ⟨by norm_num, (new_location_spec 5).1, (new_location_spec 5).2 (by norm_num)⟩

/-! Attribute::modifier and Character::max_health, src/mud/character.rs. -/

theorem wrap32_numerals (n : Int) :
    wrap32 n = (n + 2147483648) % 4294967296 - 2147483648 := by
  norm_num [wrap32]

/-- Truncating division by two in terms of Euclidean division. -/
theorem tdiv_two_eq (a : Int) :
    Int.tdiv a 2 = if 0 ≤ a then a / 2 else -(-a / 2) := by
  by_cases h : 0 ≤ a
  · rw [if_pos h, Int.tdiv_eq_ediv h (by norm_num)]
  · rw [if_neg h]
    have h2 : (0 : Int) ≤ -a := by omega
    have hneg := Int.neg_tdiv (-a) 2
    rw [neg_neg] at hneg
    rw [hneg, Int.tdiv_eq_ediv h2 (by norm_num)]

/-- C9 fails on the code: at toughness i32::MIN the subtraction v - 10
wraps, so the modifier is a large positive value instead of
(v - 10) div 2 rounded toward zero. -/
theorem modifier_wraps_at_min :
    Attribute.modifier ⟨-2147483648⟩ ≠ Int.tdiv ((-2147483648 : Int) - 10) 2 := by
  decide

/-- C9 as amended: whenever the i32 subtraction v - 10 cannot wrap (that
is, i32::MIN + 10 ≤ v ≤ i32::MAX), the modifier is (v - 10) div 2 rounded
toward zero, and max_health is max(1, 2 · modifier + 8); the value is at
least 1, so the u32 conversion in the code never panics. -/
theorem modifier_max_health_in_range (v : Int) (c : Character)
    (hc : c.attributes.toughness = ⟨v⟩)
    (h1 : -2147483638 ≤ v) (h2 : v ≤ 2147483647) :
    Attribute.modifier ⟨v⟩ = Int.tdiv (v - 10) 2 ∧
    c.max_health = max 1 (2 * Attribute.modifier ⟨v⟩ + 8) ∧
    1 ≤ c.max_health := by
  have hw : wrap32 (v - 10) = v - 10 := by
    rw [wrap32_numerals]
    omega
  have hmod : Attribute.modifier ⟨v⟩ = Int.tdiv (v - 10) 2 := by
    rw [Attribute.modifier, hw]
  refine ⟨hmod, ?_, ?_⟩
  · rw [Character.max_health, hc, hmod]
    have hm := tdiv_two_eq (v - 10)
    rw [hm]
    rcases le_or_lt 0 (v - 10) with hv | hv
    · rw [if_pos hv]
      simp only [wrap32_numerals]
      omega
    · rw [if_neg (by omega)]
      simp only [wrap32_numerals]
      omega
  · rw [Character.max_health]
    exact le_max_right _ _

/-- A character with toughness 14, used by the C9 witness. -/
def demoChar14 : Character :=
  { defaultCharacter with attributes := ⟨⟨10⟩, ⟨14⟩, ⟨10⟩, ⟨10⟩, ⟨10⟩⟩ }

/-- Witness for the amended C9 at toughness 14. -/
theorem modifier_max_health_witness :
    Attribute.modifier ⟨14⟩ = Int.tdiv ((14 : Int) - 10) 2 ∧
    demoChar14.max_health = max 1 (2 * Attribute.modifier ⟨14⟩ + 8) ∧
    1 ≤ demoChar14.max_health :=
  modifier_max_health_in_range 14 demoChar14 rfl (by norm_num) (by norm_num)

/-! The engine's generation merge. The engine variant carrying
incorporate_generation is not part of the sources under src/ (the shipped
engine.rs is the older scripting variant), so the merge of one NewPlace
result is modelled from the spec. -/

theorem is_connected_of_conn (p : Place) (d : Direction) (loc : Location)
    (h : p.connections d = some loc) : p.is_connected loc = true := by
  unfold Place.is_connected
  rw [List.any_eq_true]
  exact ⟨d, Direction.mem_values d, by simp [h]⟩

/-- Modelled from the spec: incorporate_generation (§4.4) for one NewPlace
result, the engine function being absent from src/. Given the chosen
overworld locale (spec step 1 requires it to have fewer than five
connections), wire locale → entry with add_connection(North, ..), wire the
reverse of the direction actually used on the new entry, insert the entry
and every interior room into places, and append the entry's location to
overworld_locales. none models the failure paths. -/
def incorporate_new_place (w : World) (chosen : Location) (entry : Place)
    (rooms : PlaceMap) : Option World :=
  match alookup w.places chosen with
  | none => none
  | some cp =>
    if connCount cp.connections < 5 then
      match cp.add_connection .North entry.location with
      | (_, .error _) => none
      | (cp2, .ok used) =>
        match entry.add_connection used.reverse chosen with
        | (_, .error _) => none
        | (entry2, .ok _) =>
          some { places := ainsertAll
                   (ainsert (aupdate w.places chosen cp2) entry.location entry2)
                   rooms,
                 overworld_locales := w.overworld_locales ++ [entry.location],
                 player_characters := w.player_characters,
                 current_tick := w.current_tick }
    else none

/-- C4: merging a NewPlace result links the chosen under-five-connections
overworld locale and the new overworld entry to each other, inserts the
entry and every interior room into places, and appends the entry's
location to overworld_locales. -/
theorem incorporate_generation_spec (w : World) (chosen : Location) (entry : Place)
    (rooms : PlaceMap) (cp : Place)
    (hmem : chosen ∈ w.overworld_locales)
    (hcp : alookup w.places chosen = some cp)
    (hlt : connCount cp.connections < 5)
    (hentry : connCount entry.connections < 6)
    (hne : entry.location ≠ chosen)
    (hr1 : ∀ kv ∈ rooms, kv.1 ≠ entry.location)
    (hr2 : ∀ kv ∈ rooms, kv.1 ≠ chosen)
    (hnodup : (rooms.map Prod.fst).Nodup) :
    ∃ w2, incorporate_new_place w chosen entry rooms = some w2 ∧
      (∃ cp2, alookup w2.places chosen = some cp2 ∧
        cp2.is_connected entry.location = true) ∧
      (∃ e2, alookup w2.places entry.location = some e2 ∧
        e2.is_connected chosen = true) ∧
      (∀ kv ∈ rooms, alookup w2.places kv.1 = some kv.2) ∧
      w2.overworld_locales = w.overworld_locales ++ [entry.location] := by
  obtain ⟨u, cp2, heq, hstore, hloc, _, _⟩ :=
    add_connection_lt_six cp .North entry.location (by omega)
  obtain ⟨u2, e2, heq2, hstore2, hloc2, _, _⟩ :=
    add_connection_lt_six entry u.reverse chosen hentry
  refine ⟨{ places := ainsertAll
              (ainsert (aupdate w.places chosen cp2) entry.location e2) rooms,
            overworld_locales := w.overworld_locales ++ [entry.location],
            player_characters := w.player_characters,
            current_tick := w.current_tick }, ?_, ?_, ?_, ?_, rfl⟩
  · simp only [incorporate_new_place, hcp, hlt, if_true, heq, heq2]
  · refine ⟨cp2, ?_, is_connected_of_conn cp2 u entry.location hstore⟩
    show alookup (ainsertAll
      (ainsert (aupdate w.places chosen cp2) entry.location e2) rooms) chosen = some cp2
    rw [alookup_ainsertAll_not_mem rooms _ chosen hr2, ainsert, alookup,
      if_neg (fun hc => hne hc.symm)]
    exact alookup_aupdate_self w.places chosen cp2 (by rw [hcp]; rfl)
  · refine ⟨e2, ?_, is_connected_of_conn e2 u2 chosen hstore2⟩
    show alookup (ainsertAll
      (ainsert (aupdate w.places chosen cp2) entry.location e2) rooms) entry.location
      = some e2
    rw [alookup_ainsertAll_not_mem rooms _ entry.location hr1, ainsert, alookup,
      if_pos rfl]
  · intro kv hkv
    exact alookup_ainsertAll_mem rooms _ kv.1 kv.2 hkv hnodup

/-- The overworld locale of the C4 witness world. -/
def demoLocale : Place :=
  { name := "X", location := 10, description := "x", tags := [],
    connections := fun _ => none }

/-- The new overworld entry of the C4 witness, already linked Down to its
entrance room as generate_place leaves it. -/
def demoEntry : Place :=
  { name := "Overworld - D", location := 20, description := "d", tags := [],
    connections := fun d => if d = Direction.Down then some 30 else none }

/-- The interior rooms of the C4 witness. -/
def demoInterior : PlaceMap := [(30, demoRoom "ent" 30)]

/-- The one-locale world of the C4 witness. -/
def demoWorld4 : World :=
  { places := [(10, demoLocale)], overworld_locales := [10],
    player_characters := [], current_tick := 0 }

/-- Witness for C4 on a concrete one-locale world. -/
theorem incorporate_generation_spec_witness :
    ∃ w2, incorporate_new_place demoWorld4 10 demoEntry demoInterior = some w2 ∧
      (∃ cp2, alookup w2.places 10 = some cp2 ∧
        cp2.is_connected demoEntry.location = true) ∧
      (∃ e2, alookup w2.places demoEntry.location = some e2 ∧
        e2.is_connected 10 = true) ∧
      (∀ kv ∈ demoInterior, alookup w2.places kv.1 = some kv.2) ∧
      w2.overworld_locales = demoWorld4.overworld_locales ++ [demoEntry.location] :=
  incorporate_generation_spec demoWorld4 10 demoEntry demoInterior demoLocale
    (by decide) rfl (by decide) (by decide) (by decide) (by decide) (by decide)
    (by decide)

end Somnuscape
